import Mathlib

/-!
Verification development for the hazard-aggregation and risk-scoring
pipeline of `src/application/site_safety_inspection_app.py`.

Text is modelled as `List Char` (mirroring Python `str`), numeric scores as
`Int` (Python `int`) and the weighted site score as `ℚ` (the code computes a
ratio of integer-weighted integer sums).  Loosely structured AI-backend
values are modelled by the inductive `PyValue`; `json.loads` is modelled by
a small recursive-descent JSON reader (`jsonLoads`).  Streamlit session
state and the re-render behaviour of the script are modelled as explicit
state-passing functions.
-/

namespace SiteSafety

/-! ### Python string primitives used by the source -/

/-- Characters stripped by Python `str.strip()` with no argument. -/
def pyWsChar (c : Char) : Bool :=
  c = ' ' || c = '\t' || c = '\n' || c = '\r' || c = '\x0b' || c = '\x0c'

/-- Python `s.strip()`. -/
def pyStrip (s : List Char) : List Char :=
  ((s.dropWhile pyWsChar).reverse.dropWhile pyWsChar).reverse

/-- Python `s.strip(cs)`: strip any of the characters `cs` from both ends. -/
def pyStripChars (cs : List Char) (s : List Char) : List Char :=
  ((s.dropWhile (fun c => cs.contains c)).reverse.dropWhile
    (fun c => cs.contains c)).reverse

/-- Python `s.lstrip(cs)`. -/
def pyLstripChars (cs : List Char) (s : List Char) : List Char :=
  s.dropWhile (fun c => cs.contains c)

/-- Python `s.replace("\\n", r)` for a one-character replacement `r`
(the source replaces the two-character sequence backslash-`n` by a real
newline, or by a space for risk explanations). -/
def replaceEscNlWith (r : Char) : List Char → List Char
  | '\\' :: 'n' :: rest => r :: replaceEscNlWith r rest
  | c :: rest => c :: replaceEscNlWith r rest
  | [] => []

/-- Python `s.replace(x, "")` for a single character `x`. -/
def removeChar (x : Char) (s : List Char) : List Char :=
  s.filter (fun c => c ≠ x)

/-- One pass of Python `re.sub(r"<[^>]+>", "", s)`: at a `<`, the regex
matches through the first later `>` provided at least one non-`>` character
sits between them; on a failed match the scanner advances one character.
Fuel-driven; the fuel is the input length, and every step consumes at least
one character. -/
def removeTagsGo : Nat → List Char → List Char
  | 0, s => s
  | _, [] => []
  | Nat.succ n, c :: rest =>
    if c = '<' then
      let pre := rest.takeWhile (fun d => d != '>')
      let post := rest.dropWhile (fun d => d != '>')
      if pre = [] ∨ post = [] then c :: removeTagsGo n rest
      else removeTagsGo n (post.drop 1)
    else c :: removeTagsGo n rest

/-- Python `re.sub(r"<[^>]+>", "", s)`. -/
def removeTags (s : List Char) : List Char :=
  removeTagsGo s.length s

/-- Find the earliest `**` in the input (the lazy closing delimiter of
`re.sub(r"\*\*(.*?)\*\*", ...)`), returning the text before it and the text
after it. -/
def splitAtStars : List Char → Option (List Char × List Char)
  | '*' :: '*' :: rest => some ([], rest)
  | c :: rest =>
    match splitAtStars rest with
    | some p => some (c :: p.1, p.2)
    | Option.none => Option.none
  | [] => Option.none

/-- Python `re.sub(r"\*\*(.*?)\*\*", r"\1", s)`: replace each lazily
matched `**...**` pair by its content; an unclosed `**` is kept and the
scanner advances one character.  Fuel is the input length. -/
def boldSubGo : Nat → List Char → List Char
  | 0, s => s
  | _, [] => []
  | Nat.succ n, '*' :: '*' :: rest =>
    (match splitAtStars rest with
     | some p => p.1 ++ boldSubGo n p.2
     | Option.none => '*' :: boldSubGo n ('*' :: rest))
  | Nat.succ n, c :: rest => c :: boldSubGo n rest

/-- Python `re.sub(r"\*\*(.*?)\*\*", r"\1", s)`. -/
def boldSub (s : List Char) : List Char :=
  boldSubGo s.length s

/-- Python `s.splitlines()` (newline and carriage return both break lines;
a possible extra empty segment is irrelevant because blank lines are
dropped by every caller). -/
def splitLinesGo : List Char → List Char → List (List Char)
  | [], acc => [acc.reverse]
  | c :: rest, acc =>
    if c = '\n' || c = '\r' then acc.reverse :: splitLinesGo rest []
    else splitLinesGo rest (c :: acc)

/-- Python `s.splitlines()`. -/
def splitLines (s : List Char) : List (List Char) :=
  splitLinesGo s []

/-- The character set of `line.lstrip("-•0123456789. ")` in the source. -/
def bulletChars : List Char := "-•0123456789. ".data

/-! ### Text normalizer: `bullets_to_html` (source lines 289-314) -/

/-- The per-line processing of `bullets_to_html`: strip the line, drop it
when blank, remove bold markers, strip leading bullet and number
characters, and prepend the `"- "` bullet. -/
def processLine (line : List Char) : Option (List Char) :=
  let l1 := pyStrip line
  if l1 = [] then Option.none
  else
    let l2 := boldSub l1
    let l3 := pyStrip (pyLstripChars bulletChars l2)
    some ('-' :: ' ' :: l3)

/-- `"\n".join(lines)`. -/
def joinNl : List (List Char) → List Char
  | [] => []
  | [l] => l
  | l :: ls => l ++ '\n' :: joinNl ls

/-- The list of processed lines built by `bullets_to_html` before joining:
unescape `\\n`, strip whitespace then quote characters, remove HTML tags,
split into lines and process each line. -/
def cleanedLines (text : List Char) : List (List Char) :=
  (splitLines (removeTags (pyStripChars ['\'']
    (pyStripChars ['"'] (pyStrip (replaceEscNlWith '\n' text)))))).filterMap
    processLine

/-- The text normalizer `bullets_to_html` (source lines 289-314). -/
def bullets_to_html (text : List Char) : List Char :=
  if cleanedLines text = [] then "- No actions identified.".data
  else joinNl (cleanedLines text)

/-! ### Loosely structured backend values and `json.loads` -/

/-- A Python value as returned by the AI backend: `None`, a boolean, an
integer, a string, a list, or a string-keyed mapping. -/
inductive PyValue where
  | null : PyValue
  | bool : Bool → PyValue
  | int : Int → PyValue
  | str : List Char → PyValue
  | list : List PyValue → PyValue
  | dict : List (List Char × PyValue) → PyValue

/-- Python `isinstance(v, dict)`. -/
def isDict : PyValue → Bool
  | .dict _ => true
  | _ => false

/-- The elements iterated by `Counter.update(v)` for the list values this
pipeline produces (sentinel lists and `extract_labels` results). -/
def listElems : PyValue → List PyValue
  | .list xs => xs
  | _ => []

/-- The string elements of a backend list value (hazard-category labels). -/
def strElems (v : PyValue) : List (List Char) :=
  (listElems v).filterMap (fun x =>
    match x with
    | .str s => some s
    | _ => Option.none)

/-- Python `d.get(key, dflt)`. -/
def dictGetD (entries : List (List Char × PyValue)) (key : List Char)
    (dflt : PyValue) : PyValue :=
  match entries.lookup key with
  | some v => v
  | Option.none => dflt

/-- JSON whitespace. -/
def jsonWsChar (c : Char) : Bool :=
  c = ' ' || c = '\t' || c = '\n' || c = '\r'

/-- Skip JSON whitespace. -/
def skipWs (s : List Char) : List Char :=
  s.dropWhile jsonWsChar

/-- JSON string escape characters (the forms needed here). -/
def escChar (c : Char) : Char :=
  if c = 'n' then '\n' else if c = 't' then '\t'
  else if c = 'r' then '\r' else c

/-- Read a JSON string body after the opening quote, returning the content
and the remainder after the closing quote. -/
def parseJsonStringBody : List Char → Option (List Char × List Char)
  | [] => Option.none
  | '"' :: rest => some ([], rest)
  | '\\' :: c :: rest =>
    match parseJsonStringBody rest with
    | some p => some (escChar c :: p.1, p.2)
    | Option.none => Option.none
  | c :: rest =>
    match parseJsonStringBody rest with
    | some p => some (c :: p.1, p.2)
    | Option.none => Option.none

/-- Decimal digits to a natural number. -/
def digitsToNat (ds : List Char) : Nat :=
  ds.foldl (fun acc c => 10 * acc + (c.toNat - '0'.toNat)) 0

/-- Read a run of decimal digits. -/
def parseNatTok (s : List Char) : Option (Nat × List Char) :=
  let ds := s.takeWhile Char.isDigit
  if ds = [] then Option.none
  else some (digitsToNat ds, s.dropWhile Char.isDigit)

/-- Read a JSON integer (optional minus sign and digits). -/
def parseNumberTok (s : List Char) : Option (PyValue × List Char) :=
  match s with
  | '-' :: rest =>
    (match parseNatTok rest with
     | some p => some (.int (-(p.1 : Int)), p.2)
     | Option.none => Option.none)
  | _ =>
    (match parseNatTok s with
     | some p => some (.int (p.1 : Int), p.2)
     | Option.none => Option.none)

mutual

/-- Recursive-descent JSON value reader (model of `json.loads`). -/
def parseVal : Nat → List Char → Option (PyValue × List Char)
  | 0, _ => Option.none
  | Nat.succ fuel, s =>
    match skipWs s with
    | '\x7b' :: rest =>
      (match parseObjItems fuel rest with
       | some p => some (.dict p.1, p.2)
       | Option.none => Option.none)
    | '[' :: rest =>
      (match parseArrItems fuel rest with
       | some p => some (.list p.1, p.2)
       | Option.none => Option.none)
    | '"' :: rest =>
      (match parseJsonStringBody rest with
       | some p => some (.str p.1, p.2)
       | Option.none => Option.none)
    | 't' :: 'r' :: 'u' :: 'e' :: r => some (.bool true, r)
    | 'f' :: 'a' :: 'l' :: 's' :: 'e' :: r => some (.bool false, r)
    | 'n' :: 'u' :: 'l' :: 'l' :: r => some (.null, r)
    | other => parseNumberTok other

/-- JSON array items after the opening bracket. -/
def parseArrItems : Nat → List Char → Option (List PyValue × List Char)
  | 0, _ => Option.none
  | Nat.succ fuel, s =>
    match skipWs s with
    | ']' :: r => some ([], r)
    | s2 =>
      match parseVal fuel s2 with
      | some (v, r) =>
        (match skipWs r with
         | ',' :: r2 =>
           (match parseArrItems fuel r2 with
            | some p => some (v :: p.1, p.2)
            | Option.none => Option.none)
         | ']' :: r2 => some ([v], r2)
         | _ => Option.none)
      | Option.none => Option.none

/-- JSON object members after the opening brace. -/
def parseObjItems : Nat → List Char →
    Option (List (List Char × PyValue) × List Char)
  | 0, _ => Option.none
  | Nat.succ fuel, s =>
    match skipWs s with
    | '\x7d' :: r => some ([], r)
    | '"' :: rest =>
      (match parseJsonStringBody rest with
       | some (key, r) =>
         (match skipWs r with
          | ':' :: r2 =>
            (match parseVal fuel r2 with
             | some (v, r3) =>
               (match skipWs r3 with
                | ',' :: r4 =>
                  (match parseObjItems fuel r4 with
                   | some p => some ((key, v) :: p.1, p.2)
                   | Option.none => Option.none)
                | '\x7d' :: r4 => some ([(key, v)], r4)
                | _ => Option.none)
             | Option.none => Option.none)
          | _ => Option.none)
       | Option.none => Option.none)
    | _ => Option.none

end

/-- Model of Python `json.loads`: read one JSON value and require the
remainder to be whitespace; `Option.none` models a raised decode error. -/
def jsonLoads (s : List Char) : Option PyValue :=
  match parseVal (2 * s.length + 4) s with
  | some (v, r) => if skipWs r = [] then some v else Option.none
  | Option.none => Option.none

/-! ### Label extractor: `extract_labels` (source lines 253-263) -/

/-- `extract_labels` (source lines 253-263): a dict yields its `labels`
entry (default `[]`); a string is JSON-decoded — a decoded dict yields its
`labels` entry, any other decoded value falls through to the final
`return []`, and a decode failure yields the one-element list wrapping the
string; everything else yields `[]`. -/
def extract_labels (value : PyValue) : PyValue :=
  match value with
  | .dict entries => dictGetD entries "labels".data (.list [])
  | .str s =>
    (match jsonLoads s with
     | some parsed =>
       (match parsed with
        | .dict entries => dictGetD entries "labels".data (.list [])
        | _ => .list [])
     | Option.none => .list [.str s])
  | _ => .list []

/-! ### Severity classifier and weights (source lines 265-271, 772-777) -/

/-- `severity_from_score` (source lines 265-271), over ℚ: the same
function is applied to integer per-image scores and to the rational-valued
weighted site score. -/
def severity_from_score (score : ℚ) : List Char :=
  if score < 4 then "Low".data
  else if score < 7 then "Medium".data
  else "High".data

/-- The weights dict `{"Low": 1, "Medium": 2, "High": 3}` (source line
772). -/
def weights : List (List Char × ℚ) :=
  [("Low".data, 1), ("Medium".data, 2), ("High".data, 3)]

/-- `weights[sev]`.  Every severity reaching this lookup was produced by
`severity_from_score` (or is the sentinel `"Low"`), so the default `0` for
a missing key models the unreachable `KeyError` branch. -/
def weightOf (sev : List Char) : ℚ :=
  (weights.lookup sev).getD 0

/-! ### Per-image analysis (source lines 379-509) -/

/-- One normalized per-image record, mirroring the result dict built by
the analysis loop (the opaque `image_bytes` field is omitted). -/
structure Finding where
  image_name : List Char
  score : Int
  severity : List Char
  hazard_categories : PyValue
  detected_hazards : PyValue
  recommended_actions : PyValue
  risk_explanation : List Char
  has_potential_hazard : Bool

/-- The sentinel category `"No Visible Hazard"`. -/
def sentinelCat : List Char := "No Visible Hazard".data

/-- The fixed explanation stored by the short-circuit branch (source lines
420-423). -/
def noHazardExplanation : List Char :=
  ("This image was automatically classified as non-actionable by the AI safety filter. "
    ++ "No unsafe conditions or hazards were detected.").data

/-- The row returned by the backend query for one hazardous image (source
lines 429-486): the risk-score text and the four other outputs. -/
structure BackendResponse where
  risk_score : List Char
  hazard_categories : PyValue
  detected_hazards : PyValue
  recommended_actions : PyValue
  risk_explanation : List Char

/-- The first maximal run of decimal digits in the text, as matched by
`re.search(r"\d+", s)`. -/
def firstDigitRun : List Char → Option (List Char)
  | [] => Option.none
  | c :: rest =>
    if c.isDigit then some (c :: rest.takeWhile Char.isDigit)
    else firstDigitRun rest

/-- `int(re.search(r"\d+", str(text)).group())` (source line 488);
`Option.none` models the `AttributeError` raised when no digit occurs. -/
def parseScore (s : List Char) : Option Nat :=
  match firstDigitRun s with
  | some ds => some (digitsToNat ds)
  | Option.none => Option.none

/-- Analysis of one image (source lines 391-507): the pre-filter boolean
selects the short-circuit sentinel record (lines 411-426) or the full
analysis (lines 486-507); `Option.none` models the unhandled exception
raised when the risk-score text has no digit. -/
def analyzeImage (image_name : List Char) (has_potential_hazard : Bool)
    (resp : BackendResponse) : Option Finding :=
  if has_potential_hazard = false then
    some
      { image_name := image_name
        score := 0
        severity := "Low".data
        hazard_categories := .list [.str sentinelCat]
        detected_hazards := .null
        recommended_actions := .null
        risk_explanation := noHazardExplanation
        has_potential_hazard := false }
  else
    match parseScore resp.risk_score with
    | Option.none => Option.none
    | some score =>
      some
        { image_name := image_name
          score := (score : Int)
          severity := severity_from_score ((score : Int) : ℚ)
          hazard_categories := extract_labels resp.hazard_categories
          detected_hazards := resp.detected_hazards
          recommended_actions := resp.recommended_actions
          risk_explanation :=
            pyStrip (removeChar '\'' (removeChar '"'
              (replaceEscNlWith ' ' resp.risk_explanation)))
          has_potential_hazard := true }

/-- One uploaded image together with the backend behaviour for it. -/
structure ImageCase where
  name : List Char
  has_potential_hazard : Bool
  resp : BackendResponse

/-- The sequential analysis loop over the uploaded batch (source lines
391-507).  The loop has no per-image exception handling: an unhandled
score-parse failure aborts the whole run, so the pair carries the findings
accumulated by a completed run together with a completion flag; on abort
no findings reach the aggregation. -/
def analyzeBatchRun : List ImageCase → List Finding × Bool
  | [] => ([], true)
  | img :: rest =>
    match analyzeImage img.name img.has_potential_hazard img.resp with
    | some f =>
      let p := analyzeBatchRun rest
      (f :: p.1, p.2)
    | Option.none => ([], false)

/-! ### Site aggregation (source lines 516-777) -/

/-- `weighted_score` (source lines 772-775). -/
def weighted_score (results : List Finding) : ℚ :=
  ((results.map (fun item => (item.score : ℚ) * weightOf item.severity)).sum)
    / ((results.map (fun item => weightOf item.severity)).sum)

/-- `site_severity = severity_from_score(weighted_score)` (source line
777). -/
def site_severity (results : List Finding) : List Char :=
  severity_from_score (weighted_score results)

/-- A finding with the given score and severity and neutral remaining
fields, for concrete aggregation examples. -/
def mkF (score : Int) (severity : List Char) : Finding :=
  { image_name := []
    score := score
    severity := severity
    hazard_categories := .list []
    detected_hazards := .null
    recommended_actions := .null
    risk_explanation := []
    has_potential_hazard := true }

/-! ### Hazard frequency counter (source lines 519-564, 1493-1495, 1625-1629) -/

/-- The number of occurrences of category `h` across the findings'
`hazard_categories` lists: the count held by `hazard_counter` after the
build loop at source lines 524-525. -/
def hazardOcc (results : List Finding) (h : List Char) : Nat :=
  (results.map (fun f => (strElems f.hazard_categories).count h)).sum

/-- All category labels across the findings in order (the insertion order
of `hazard_counter`). -/
def allCats (results : List Finding) : List (List Char) :=
  (results.map (fun f => strElems f.hazard_categories)).flatten

/-- Distinct elements in first-occurrence order (`Counter` key order). -/
def dedupFirst (l : List (List Char)) : List (List Char) :=
  l.foldl (fun acc h => if h ∈ acc then acc else acc ++ [h]) []

/-- `hazard_counter.items()` key order. -/
def counterItemsOrder (results : List Finding) : List (List Char) :=
  dedupFirst (allCats results)

/-- The hazard-history rows inserted per run (source lines 542-560): one
row per non-sentinel category with the counter value read before the
display loop, hence the exact occurrence count. -/
def hazardHistoryRows (results : List Finding) : List (List Char × Nat) :=
  (counterItemsOrder results).filterMap (fun h =>
    if h = sentinelCat then Option.none
    else some (h, hazardOcc results h))

/-- The counter value after the display loop (source lines 563-564), which
runs `hazard_counter.update(item["hazard_categories"])` a second time over
every finding, doubling every count. -/
def counterAfterDisplayLoop (results : List Finding) (h : List Char) : Nat :=
  hazardOcc results h + hazardOcc results h

/-- The non-sentinel frequency list read by the exported report (source
lines 1493-1495) and the email bodies (801-805, 1625-1629): these read
`hazard_counter` after the display loop. -/
def reportFrequencyList (results : List Finding) : List (List Char × Nat) :=
  (counterItemsOrder results).filterMap (fun h =>
    if h = sentinelCat then Option.none
    else some (h, counterAfterDisplayLoop results h))

/-- A concrete hazardous finding carrying one `"Fall Risk"` label. -/
def sampleHazardFinding : Finding :=
  { image_name := "img1.jpg".data
    score := 8
    severity := "High".data
    hazard_categories := .list [.str "Fall Risk".data]
    detected_hazards := .null
    recommended_actions := .null
    risk_explanation := []
    has_potential_hazard := true }

/-- A concrete sentinel finding, as built by the short-circuit branch. -/
def sampleSentinelFinding : Finding :=
  { image_name := "img0.jpg".data
    score := 0
    severity := "Low".data
    hazard_categories := .list [.str sentinelCat]
    detected_hazards := .null
    recommended_actions := .null
    risk_explanation := noHazardExplanation
    has_potential_hazard := false }

/-! ### Persistence per render pass (source lines 377-389, 516-560, 1198-1216) -/

/-- The append-only history store: the number of `SITE_RISK_HISTORY` rows
and the `SITE_HAZARD_HISTORY` rows. -/
structure Db where
  risk_rows : Nat
  hazard_rows : List (List Char × Nat)

/-- The persistence performed by the `if results:` block of one render
pass: nothing when there are no results, otherwise the hazard-history rows
(source lines 542-560) and exactly one risk-history row (source lines
1198-1216). -/
def persistBlock (results : List Finding) (db : Db) : Db :=
  if results.isEmpty then db
  else
    { risk_rows := db.risk_rows + 1
      hazard_rows := db.hazard_rows ++ hazardHistoryRows results }

/-- One execution of the script (one render pass): `results` is the
session-state list, replaced by the freshly analyzed uploads when the
analyze button was pressed (source lines 377-389, with `st.stop()` on an
empty upload set), and the `if results:` block then runs its persistence
unconditionally (source line 516). -/
def renderScript (analyze_btn : Bool) (uploads : List Finding)
    (state : List Finding) (db : Db) : List Finding × Db :=
  if analyze_btn && uploads.isEmpty then (state, db)
  else
    let results := if analyze_btn then uploads else state
    (results, persistBlock results db)

/-- An empty history store. -/
def dbEmpty : Db := { risk_rows := 0, hazard_rows := [] }

/-! ### Automatic alert email (source lines 783-838) -/

/-- The fixed configured safety-manager recipient (source line 784). -/
def SAFETY_MANAGER_EMAIL : List Char := "rafi.hidayat@synogize.io".data

/-- The session-scoped alert state: `st.session_state.auto_email_sent`. -/
structure EmailState where
  auto_email_sent : Bool

/-- A fresh session (`auto_email_sent` absent, initialized `False`,
source lines 787-788). -/
def initSession : EmailState := { auto_email_sent := false }

/-- The auto-alert block for one completed run (source lines 790-828):
when the site severity is `"High"` and the flag is clear, send to the
fixed recipient and set the flag; the flag is never reset afterwards. -/
def autoEmailStep (site_sev : List Char) (st : EmailState) :
    EmailState × Option (List Char) :=
  if site_sev = "High".data ∧ st.auto_email_sent = false then
    ({ auto_email_sent := true }, some SAFETY_MANAGER_EMAIL)
  else (st, Option.none)

/-- The number of automatic alerts dispatched over a sequence of completed
runs within one session, threading the session flag. -/
def runAlerts : List (List Char) → EmailState → Nat
  | [], _ => 0
  | sev :: rest, st =>
    match autoEmailStep sev st with
    | (st2, some _) => 1 + runAlerts rest st2
    | (st2, Option.none) => runAlerts rest st2

/-! ### Concrete backend responses for the claims -/

/-- A backend row whose risk-score text is `"0"` and whose classification
is exactly the sentinel category (both inside the closed vocabulary the
query sends). -/
def respZero : BackendResponse :=
  { risk_score := "0".data
    hazard_categories := .dict [("labels".data, .list [.str sentinelCat])]
    detected_hazards := .null
    recommended_actions := .null
    risk_explanation := [] }

/-- A hazardous image whose risk-score text contains no digit. -/
def badImageCase : ImageCase :=
  { name := "img1.jpg".data
    has_potential_hazard := true
    resp :=
      { risk_score := "N/A".data
        hazard_categories := .null
        detected_hazards := .null
        recommended_actions := .null
        risk_explanation := [] } }

/-- A hazardous image with a well-formed backend row (score text `"8"`). -/
def goodImageCase : ImageCase :=
  { name := "img2.jpg".data
    has_potential_hazard := true
    resp :=
      { risk_score := "8".data
        hazard_categories := .dict [("labels".data, .list [.str "Fall Risk".data])]
        detected_hazards := .null
        recommended_actions := .null
        risk_explanation := [] } }

/-! ### Helper lemmas -/

/-- The weight of `"Low"` is 1. -/
theorem weightOf_low : weightOf ("Low".data) = 1 := rfl

/-- The weight of `"Medium"` is 2. -/
theorem weightOf_medium : weightOf ("Medium".data) = 2 := rfl

/-- The weight of `"High"` is 3. -/
theorem weightOf_high : weightOf ("High".data) = 3 := rfl

/-- Character-list form of `weightOf_low`, for simp after normalization. -/
theorem weightOf_low_chars : weightOf ['L', 'o', 'w'] = 1 := rfl

/-- Character-list form of `weightOf_medium`. -/
theorem weightOf_medium_chars : weightOf ['M', 'e', 'd', 'i', 'u', 'm'] = 2 := rfl

/-- Character-list form of `weightOf_high`. -/
theorem weightOf_high_chars : weightOf ['H', 'i', 'g', 'h'] = 3 := rfl

/-- Every severity produced by the classifier carries weight at least 1. -/
theorem one_le_weightOf_severity (q : ℚ) :
    1 ≤ weightOf (severity_from_score q) := by
  unfold severity_from_score
  split_ifs
  · have h : weightOf ("Low".data) = 1 := rfl
    rw [h]
  · have h : weightOf ("Medium".data) = 2 := rfl
    rw [h]; norm_num
  · have h : weightOf ("High".data) = 3 := rfl
    rw [h]; norm_num

/-- Pointwise comparison of mapped sums over a findings list. -/
theorem sum_le_sum_mapQ {l : List Finding} {f g : Finding → ℚ}
    (h : ∀ x ∈ l, f x ≤ g x) : (l.map f).sum ≤ (l.map g).sum := by
  induction l with
  | nil => simp
  | cons a t ih =>
    simp only [List.map_cons, List.sum_cons]
    have h1 := h a (List.mem_cons_self a t)
    have h2 := ih (fun x hx => h x (List.mem_cons_of_mem _ hx))
    linarith

/-- Pulling a constant factor out of a mapped sum. -/
theorem sum_map_mul_leftQ (l : List Finding) (c : ℚ) (f : Finding → ℚ) :
    (l.map (fun x => c * f x)).sum = c * (l.map f).sum := by
  induction l with
  | nil => simp
  | cons a t ih => simp [List.map_cons, List.sum_cons, ih, mul_add]

/-- For a non-empty findings list whose severities come from the
classifier, the weight sum is at least 1. -/
theorem one_le_weight_sum (l : List Finding) (hne : l ≠ [])
    (hsev : ∀ f ∈ l, f.severity = severity_from_score ((f.score : ℚ))) :
    1 ≤ (l.map (fun f => weightOf f.severity)).sum := by
  cases l with
  | nil => exact absurd rfl hne
  | cons a t =>
    simp only [List.map_cons, List.sum_cons]
    have ha : 1 ≤ weightOf a.severity := by
      rw [hsev a (List.mem_cons_self a t)]
      exact one_le_weightOf_severity _
    have ht : 0 ≤ (t.map (fun f => weightOf f.severity)).sum := by
      have h0 := sum_le_sum_mapQ (l := t) (f := fun _ => (0 : ℚ))
        (g := fun f => weightOf f.severity)
        (fun x hx => by
          show (0 : ℚ) ≤ weightOf x.severity
          rw [hsev x (List.mem_cons_of_mem _ hx)]
          linarith [one_le_weightOf_severity ((x.score : ℚ))])
      simpa using h0
    linarith

/-- A processed line always starts with the `"- "` bullet. -/
theorem processLine_shape (line out : List Char)
    (h : processLine line = some out) : ∃ t, out = '-' :: ' ' :: t := by
  unfold processLine at h
  by_cases hb : pyStrip line = []
  · simp [hb] at h
  · simp only [hb, if_neg, ite_false] at h
    exact ⟨_, (Option.some.injEq _ _ ▸ h).symm⟩

/-- Joining bullet lines keeps the leading `"- "`. -/
theorem joinNl_bullet_take (t : List Char) (ls : List (List Char)) :
    (joinNl (('-' :: ' ' :: t) :: ls)).take 2 = ['-', ' '] := by
  cases ls with
  | nil => simp [joinNl]
  | cons l2 ls2 => simp [joinNl]

/-- With the flag already set, the auto-alert block never sends. -/
theorem autoEmailStep_flagged (sev : List Char) :
    autoEmailStep sev { auto_email_sent := true }
      = ({ auto_email_sent := true }, Option.none) := by
  simp [autoEmailStep]

/-- With the flag already set, no later run in the session sends. -/
theorem runAlerts_flagged (sevs : List (List Char)) :
    runAlerts sevs { auto_email_sent := true } = 0 := by
  induction sevs with
  | nil => rfl
  | cons s rest ih => simp [runAlerts, autoEmailStep_flagged, ih]

/-! ### Claim theorems -/

/-- Claim C1 (amended): when the pre-filter returns false, the finding
carries exactly the sentinel values — `has_hazard = false`, score 0,
severity `"Low"` and category list `["No Visible Hazard"]`. -/
theorem no_hazard_short_circuit_sentinel :
    ∀ (nm : List Char) (resp : BackendResponse),
      (analyzeImage nm false resp).map Finding.has_potential_hazard = some false
      ∧ (analyzeImage nm false resp).map Finding.score = some 0
      ∧ (analyzeImage nm false resp).map Finding.hazard_categories
          = some (PyValue.list [.str sentinelCat])
      ∧ (analyzeImage nm false resp).map Finding.severity = some ("Low".data) :=
  fun _ _ => ⟨rfl, rfl, rfl, rfl⟩

/-- Claim C1 counterexample: a pre-filter-true image whose backend row has
risk-score text `"0"` and classification `["No Visible Hazard"]` (both
possible — the sentinel sits in the closed vocabulary the query sends)
produces a finding with `has_hazard = true`, `score = 0` and
`hazard_categories = ["No Visible Hazard"]`, so the claimed pairwise
equivalence fails. -/
theorem hazard_branch_sentinel_cex :
    (analyzeImage ("img.jpg".data) true respZero).map Finding.has_potential_hazard
        = some true
    ∧ (analyzeImage ("img.jpg".data) true respZero).map Finding.score = some 0
    ∧ (analyzeImage ("img.jpg".data) true respZero).map Finding.hazard_categories
        = some (PyValue.list [.str sentinelCat]) :=
  ⟨rfl, rfl, rfl⟩

/-- Claim C2: the severity classifier is a total function of the score
with bands `(-∞,4) ↦ Low`, `[4,7) ↦ Medium`, `[7,∞) ↦ High`, with
`severity(4) = Medium` and `severity(7) = High` exactly; the site severity
applies the same function to the weighted score, and the per-image
severity applies it to the parsed integer score. -/
theorem severity_classifier_bands :
    (∀ s : ℚ,
      (s < 4 → severity_from_score s = "Low".data)
      ∧ (4 ≤ s → s < 7 → severity_from_score s = "Medium".data)
      ∧ (7 ≤ s → severity_from_score s = "High".data))
    ∧ severity_from_score 4 = "Medium".data
    ∧ severity_from_score 7 = "High".data
    ∧ (∀ results : List Finding,
        site_severity results = severity_from_score (weighted_score results))
    ∧ (∀ (nm : List Char) (resp : BackendResponse) (n : Nat),
        parseScore resp.risk_score = some n →
        (analyzeImage nm true resp).map Finding.severity
          = some (severity_from_score ((n : Int) : ℚ))) := by
  refine ⟨?_, ?_, ?_, fun _ => rfl, ?_⟩
  · intro s
    refine ⟨fun h => ?_, fun h4 h7 => ?_, fun h7 => ?_⟩
    · unfold severity_from_score
      rw [if_pos h]
    · unfold severity_from_score
      rw [if_neg (not_lt.mpr h4), if_pos h7]
    · unfold severity_from_score
      rw [if_neg (by linarith), if_neg (not_lt.mpr h7)]
  · norm_num [severity_from_score]
  · norm_num [severity_from_score]
  · intro nm resp n h
    simp [analyzeImage, h]

/-- Witness for C2: concrete scores in each band. -/
theorem severity_classifier_bands_w :
    severity_from_score (5 / 2) = "Low".data
    ∧ severity_from_score 5 = "Medium".data
    ∧ severity_from_score 9 = "High".data :=
  ⟨(severity_classifier_bands.1 (5 / 2)).1 (by norm_num),
   (severity_classifier_bands.1 5).2.1 (by norm_num) (by norm_num),
   (severity_classifier_bands.1 9).2.2 (by norm_num)⟩

/-- Claim C3: the weighted site score is the severity-weighted mean with
weights Low 1, Medium 2, High 3; the findings (2, Low) and (8, High) give
exactly 26/4 = 6.5 with site severity Medium, and the single finding
(9, High) gives exactly 9 with site severity High. -/
theorem weighted_score_formula :
    weightOf ("Low".data) = 1
    ∧ weightOf ("Medium".data) = 2
    ∧ weightOf ("High".data) = 3
    ∧ (∀ results : List Finding, results ≠ [] →
        weighted_score results
          = ((results.map (fun f => (f.score : ℚ) * weightOf f.severity)).sum)
            / ((results.map (fun f => weightOf f.severity)).sum))
    ∧ weighted_score [mkF 2 ("Low".data), mkF 8 ("High".data)] = 26 / 4
    ∧ site_severity [mkF 2 ("Low".data), mkF 8 ("High".data)] = "Medium".data
    ∧ weighted_score [mkF 9 ("High".data)] = 9
    ∧ site_severity [mkF 9 ("High".data)] = "High".data := by
  have h1 : weighted_score [mkF 2 ("Low".data), mkF 8 ("High".data)] = 26 / 4 := by
    norm_num [weighted_score, mkF, weightOf_low_chars, weightOf_high_chars]
  have h2 : weighted_score [mkF 9 ("High".data)] = 9 := by
    norm_num [weighted_score, mkF, weightOf_high_chars]
  refine ⟨rfl, rfl, rfl, fun _ _ => rfl, h1, ?_, h2, ?_⟩
  · rw [site_severity, h1]
    norm_num [severity_from_score]
  · rw [site_severity, h2]
    norm_num [severity_from_score]

/-- Witness for C3: the weighted-mean formula applied to a concrete
non-empty findings list. -/
theorem weighted_score_formula_w :
    weighted_score [mkF 9 ("High".data)]
      = (([mkF 9 ("High".data)].map
          (fun f => (f.score : ℚ) * weightOf f.severity)).sum)
        / (([mkF 9 ("High".data)].map (fun f => weightOf f.severity)).sum) :=
  weighted_score_formula.2.2.2.1 [mkF 9 ("High".data)] (by simp)

/-- Claim C4: a risk-score text with no decimal digit makes the score
parse fail (no silent default), but the failure is not confined to that
image — the unhandled exception aborts the whole batch loop, so the
remaining images are not analyzed and nothing reaches the aggregation,
while the same batch without the bad image completes. -/
theorem score_parse_failure_aborts_batch :
    parseScore ("N/A".data) = Option.none
    ∧ analyzeImage ("img1.jpg".data) true badImageCase.resp = Option.none
    ∧ analyzeBatchRun [badImageCase, goodImageCase] = ([], false)
    ∧ (analyzeBatchRun [goodImageCase]).2 = true
    ∧ (analyzeBatchRun [goodImageCase]).1.length = 1 :=
  ⟨rfl, rfl, rfl, rfl, rfl⟩

/-- Claim C5 (amended): within one session the automatic High-severity
alert is sent exactly once — on the first completed High run — because the
`auto_email_sent` flag is set then and reset only by a new session; every
alert goes to the fixed safety-manager recipient. -/
theorem auto_alert_once_per_session :
    (∀ sevs : List (List Char),
      runAlerts sevs initSession = if ("High".data) ∈ sevs then 1 else 0)
    ∧ (∀ (sev : List Char) (st : EmailState),
        (autoEmailStep sev st).2 = Option.none
        ∨ (autoEmailStep sev st).2 = some SAFETY_MANAGER_EMAIL) := by
  constructor
  · intro sevs
    induction sevs with
    | nil => rfl
    | cons s rest ih =>
      by_cases hs : s = "High".data
      · subst hs
        have hstep : autoEmailStep ("High".data) initSession
            = ({ auto_email_sent := true }, some SAFETY_MANAGER_EMAIL) := by
          simp [autoEmailStep, initSession]
        simp [runAlerts, hstep, runAlerts_flagged, List.mem_cons]
      · have hstep : autoEmailStep s initSession = (initSession, Option.none) := by
          simp [autoEmailStep, initSession, hs]
        simp [runAlerts, hstep, ih, List.mem_cons, Ne.symm hs]
  · intro sev st
    unfold autoEmailStep
    split_ifs
    · exact Or.inr rfl
    · exact Or.inl rfl

/-- Claim C5 counterexample: two consecutive High-severity runs in one
session dispatch one alert in total, not two — the second High run sends
nothing because the flag survives across runs. -/
theorem second_high_run_alert_cex :
    runAlerts ["High".data, "High".data] initSession = 1
    ∧ runAlerts ["High".data, "High".data] initSession ≠ 2 :=
  ⟨rfl, by decide⟩

/-- Claim C6: an analysis run appends exactly one risk-history row and one
hazard row per non-sentinel category, but a re-render of the session with
the analysis results still in session state (analyze button not pressed)
runs the same `if results:` block again and appends a second risk-history
row and duplicate hazard rows. -/
theorem rerender_reappends_history :
    (renderScript true [sampleHazardFinding] [] dbEmpty).2.risk_rows = 1
    ∧ (renderScript true [sampleHazardFinding] [] dbEmpty).2.hazard_rows
        = [("Fall Risk".data, 1)]
    ∧ (renderScript false [] [sampleHazardFinding]
        (renderScript true [sampleHazardFinding] [] dbEmpty).2).2.risk_rows = 2
    ∧ (renderScript false [] [sampleHazardFinding]
        (renderScript true [sampleHazardFinding] [] dbEmpty).2).2.hazard_rows
        = [("Fall Risk".data, 1), ("Fall Risk".data, 1)] :=
  ⟨rfl, rfl, rfl, rfl⟩

/-- Claim C7 (amended): the label extractor is total — a mapping with a
`labels` entry yields that list, a JSON string encoding such a mapping
yields the same, a string that is not valid JSON yields the one-element
list wrapping it, and null yields `[]`; but a string that is valid JSON
encoding a non-mapping value falls through to `[]` rather than being
wrapped. -/
theorem extract_labels_total_spec :
    extract_labels (.dict [("labels".data, .list [.str ['A'], .str ['B']])])
        = PyValue.list [.str ['A'], .str ['B']]
    ∧ extract_labels (.str ("\x7b\"labels\": [\"A\", \"B\"]\x7d".data))
        = PyValue.list [.str ['A'], .str ['B']]
    ∧ (∀ s : List Char, jsonLoads s = Option.none →
        extract_labels (.str s) = PyValue.list [.str s])
    ∧ extract_labels .null = PyValue.list []
    ∧ (∀ (s : List Char) (v : PyValue), jsonLoads s = some v →
        isDict v = false → extract_labels (.str s) = PyValue.list []) := by
  refine ⟨rfl, rfl, ?_, rfl, ?_⟩
  · intro s h
    simp [extract_labels, h]
  · intro s v h hd
    cases v <;> simp_all [extract_labels, isDict]

/-- Witness for C7: a bare non-JSON string is wrapped into a one-element
list. -/
theorem extract_labels_total_spec_w :
    extract_labels (.str ("A".data)) = PyValue.list [.str ("A".data)] :=
  extract_labels_total_spec.2.2.1 ("A".data) rfl

/-- Claim C7 counterexample: the string `"42"` is not a JSON mapping, yet
the extractor returns `[]` instead of the claimed one-element list
`["42"]` — `json.loads` succeeds with a non-dict and control falls through
to the final `return []`. -/
theorem extract_labels_json_scalar_cex :
    extract_labels (.str ("42".data)) = PyValue.list []
    ∧ PyValue.list [] ≠ PyValue.list [.str ("42".data)] := by
  refine ⟨rfl, fun h => ?_⟩
  injection h with h1
  exact List.cons_ne_nil _ _ h1.symm

/-- Claim C8: the hazard-history rows (written before the display loop)
carry the exact non-sentinel occurrence counts, but the report and email
bodies read the counter after the display loop has updated it a second
time with every finding's categories, so every count there is doubled;
the sentinel is excluded at both boundaries. -/
theorem hazard_frequency_doubled_at_report :
    hazardOcc [sampleHazardFinding] ("Fall Risk".data) = 1
    ∧ hazardHistoryRows [sampleHazardFinding] = [("Fall Risk".data, 1)]
    ∧ counterAfterDisplayLoop [sampleHazardFinding] ("Fall Risk".data) = 2
    ∧ reportFrequencyList [sampleHazardFinding] = [("Fall Risk".data, 2)]
    ∧ hazardHistoryRows [sampleSentinelFinding] = []
    ∧ reportFrequencyList [sampleSentinelFinding] = [] :=
  ⟨rfl, rfl, rfl, rfl, rfl, rfl⟩

/-- Claim C9 (amended): the text normalizer is total and never fails — its
output always is a non-empty bullet list starting with `"- "`, and when
the cleaned input yields no lines it is exactly the fallback line
`"- No actions identified."`.  (It is, however, not idempotent; see the
counterexample.) -/
theorem normalizer_total_never_fails :
    ∀ text : List Char,
      bullets_to_html text ≠ []
      ∧ (bullets_to_html text).take 2 = "- ".data
      ∧ (cleanedLines text = [] →
          bullets_to_html text = "- No actions identified.".data) := by
  intro text
  rcases hcl : cleanedLines text with _ | ⟨l, ls⟩
  · refine ⟨?_, ?_, fun _ => ?_⟩ <;> simp [bullets_to_html, hcl]
  · have hmem : l ∈ cleanedLines text := by
      rw [hcl]; exact List.mem_cons_self _ _
    have hmem2 : l ∈ (splitLines (removeTags (pyStripChars ['\'']
        (pyStripChars ['"'] (pyStrip (replaceEscNlWith '\n' text)))))).filterMap
        processLine := by
      simpa [cleanedLines] using hmem
    obtain ⟨a, -, ha⟩ := List.mem_filterMap.mp hmem2
    obtain ⟨t, rfl⟩ := processLine_shape a l ha
    have hb : bullets_to_html text = joinNl (('-' :: ' ' :: t) :: ls) := by
      simp [bullets_to_html, hcl]
    have htake := joinNl_bullet_take t ls
    refine ⟨?_, ?_, fun hc => ?_⟩
    · rw [hb]
      intro hnil
      rw [hnil] at htake
      simp at htake
    · rw [hb]
      exact htake
    · exact absurd hc (List.cons_ne_nil _ _)

/-- Witness for C9: the empty input yields no cleaned lines, so the
normalizer returns the fallback line. -/
theorem normalizer_total_never_fails_w :
    bullets_to_html [] = "- No actions identified.".data :=
  (normalizer_total_never_fails []).2.2 rfl

/-- Claim C9 counterexample: the normalizer is not idempotent — for the
input whose bold pair conceals a tab before a digit, normalizing once
yields `"- 5 foo"` but normalizing again strips the `5` and yields
`"- foo"`. -/
theorem normalizer_not_idempotent_cex :
    bullets_to_html ("**\t5 foo**".data) = "- 5 foo".data
    ∧ bullets_to_html (bullets_to_html ("**\t5 foo**".data)) = "- foo".data
    ∧ bullets_to_html (bullets_to_html ("**\t5 foo**".data))
        ≠ bullets_to_html ("**\t5 foo**".data) := by
  refine ⟨by decide, by decide, by decide⟩

/-- Claim C10: for a non-empty findings list whose severities agree with
the classifier, the weighted site score lies within every interval
containing all per-image scores — in particular between the minimum and
maximum score, and within [0,10] whenever all scores are. -/
theorem weighted_score_within_bounds (results : List Finding)
    (hne : results ≠ [])
    (hsev : ∀ f ∈ results, f.severity = severity_from_score ((f.score : ℚ)))
    (lo hi : ℚ)
    (hlo : ∀ f ∈ results, lo ≤ (f.score : ℚ))
    (hhi : ∀ f ∈ results, (f.score : ℚ) ≤ hi) :
    lo ≤ weighted_score results ∧ weighted_score results ≤ hi := by
  have hW : 1 ≤ (results.map (fun f => weightOf f.severity)).sum :=
    one_le_weight_sum results hne hsev
  have hWpos : 0 < (results.map (fun f => weightOf f.severity)).sum := by
    linarith
  have hwnn : ∀ f ∈ results, 0 ≤ weightOf f.severity := fun f hf => by
    rw [hsev f hf]
    linarith [one_le_weightOf_severity ((f.score : ℚ))]
  have hupper : (results.map (fun f => (f.score : ℚ) * weightOf f.severity)).sum
      ≤ hi * (results.map (fun f => weightOf f.severity)).sum := by
    rw [← sum_map_mul_leftQ]
    exact sum_le_sum_mapQ
      (fun f hf => mul_le_mul_of_nonneg_right (hhi f hf) (hwnn f hf))
  have hlower : lo * (results.map (fun f => weightOf f.severity)).sum
      ≤ (results.map (fun f => (f.score : ℚ) * weightOf f.severity)).sum := by
    rw [← sum_map_mul_leftQ]
    exact sum_le_sum_mapQ
      (fun f hf => mul_le_mul_of_nonneg_right (hlo f hf) (hwnn f hf))
  constructor
  · unfold weighted_score
    exact (le_div_iff₀ hWpos).mpr hlower
  · unfold weighted_score
    exact (div_le_iff₀ hWpos).mpr hupper

/-- Witness for C10: the concrete findings (2, Low) and (8, High) keep the
weighted score between 2 and 8. -/
theorem weighted_score_within_bounds_w :
    2 ≤ weighted_score [mkF 2 ("Low".data), mkF 8 ("High".data)]
    ∧ weighted_score [mkF 2 ("Low".data), mkF 8 ("High".data)] ≤ 8 :=
  weighted_score_within_bounds _ (by simp)
    (by
      intro f hf
      rcases List.mem_cons.mp hf with rfl | hf2
      · norm_num [mkF, severity_from_score]
      · rcases List.mem_cons.mp hf2 with rfl | h3
        · norm_num [mkF, severity_from_score]
        · cases h3)
    2 8
    (by
      intro f hf
      rcases List.mem_cons.mp hf with rfl | hf2
      · norm_num [mkF]
      · rcases List.mem_cons.mp hf2 with rfl | h3
        · norm_num [mkF]
        · cases h3)
    (by
      intro f hf
      rcases List.mem_cons.mp hf with rfl | hf2
      · norm_num [mkF]
      · rcases List.mem_cons.mp hf2 with rfl | h3
        · norm_num [mkF]
        · cases h3)

end SiteSafety
